import Mathlib

/-!
Verification development for the CAIGA companion decision engine
(`companion/model_utils.py`, `companion/companion_server.py`,
`companion/llm_wrapper.py`).

Floating-point values of the Python source are embedded as exact rationals
(`ℚ`); Python dicts with `.get(key, default)` access are embedded as total
functions returning the default outside their written domain; Python string
truthiness and set membership are made explicit.
-/

namespace Companion

/-- One event record.  The source reads only `e.get("type", "")`; `etype`
holds that extracted string (the default `""` included). -/
structure Event where
  etype : String
deriving Repr, DecidableEq

/-- The fields of the polled state document that the rule classifier and the
feature code consume, after the source's `dict.get` defaulting has been
applied: `vitals.health` (default 20.0), `vitals.hunger` (default 20),
`time.isNight` (default False), `inventory.logs` (default 0),
`position.y` (default 64.0), `focus.blockUnderCrosshair` (default ""),
and `str(state.get("timestamp", "unknown"))` kept as `tsRef`. -/
structure Snapshot where
  health : ℚ
  hunger : ℤ
  isNight : Bool
  logs : ℤ
  y : ℚ
  blockUnderCrosshair : String
  tsRef : String
deriving Repr, DecidableEq

/-- Character-list prefix test (`needle` begins `hay`). -/
def charPrefix : List Char → List Char → Bool
  | [], _ => true
  | _ :: _, [] => false
  | a :: as, b :: bs => a == b && charPrefix as bs

/-- Python's substring operator `needle in hay` over character lists. -/
def charInfix (needle : List Char) : List Char → Bool
  | [] => needle.isEmpty
  | c :: rest => charPrefix needle (c :: rest) || charInfix needle rest

/-- Python `needle in hay` on strings. -/
def strContains (needle hay : String) : Bool :=
  charInfix needle.toList hay.toList

/-- Python `str.lower()` (ASCII-relevant part used by the source's keyword
matching on block names). -/
def strLower (s : String) : String :=
  ⟨s.toList.map Char.toLower⟩

/-- The fixed label universe of `ModelUtils._rules`:
`labels = ["low_health", "low_food", "night_risk", "mining_mode",
"near_resource", "exploring", "combat", "building"]`. -/
def knownLabels : List String :=
  ["low_health", "low_food", "night_risk", "mining_mode",
   "near_resource", "exploring", "combat", "building"]

/-- The distribution construction at the end of `ModelUtils._rules`:
`dist[label] = conf`, every other known label gets
`(1.0 - conf) / (len(labels) - 1)`. -/
def mkDist (label : String) (conf : ℚ) : List (String × ℚ) :=
  knownLabels.map fun l =>
    (l, if l = label then conf
        else (1 - conf) / ((knownLabels.length : ℚ) - 1))

/-- The event-type list `[e.get("type", "") for e in events]` (the source
builds a set for the rule tests; membership below is the same predicate). -/
def eventTypes (events : List Event) : List String :=
  events.map Event.etype

/-- The nine-rule priority ladder of `ModelUtils._rules`, returning
`(label, conf)`.  Conditions are evaluated in source order, earlier rules
pre-empting later ones. -/
def classifyRules (s : Snapshot) (events : List Event) : String × ℚ :=
  let ets := eventTypes events
  let mineAttempt := "mine_attempt" ∈ ets ∨ "block_broken" ∈ ets
  let tookDamage := "damage_taken" ∈ ets
  let combatActive := "combat_start" ∈ ets ∨ "mob_killed" ∈ ets
  let diedRecently := "player_death" ∈ ets
  let blk := strLower s.blockUnderCrosshair
  let nearResource :=
    strContains "ore" blk || strContains "log" blk || strContains "crop" blk
  if diedRecently then ("low_health", 98/100)
  else if tookDamage ∧ s.health < 10 then ("low_health", 95/100)
  else if combatActive then ("combat", 90/100)
  else if s.health < 8 then ("low_health", 95/100)
  else if s.hunger < 6 then ("low_food", 90/100)
  else if s.isNight ∧ s.logs < 2 then ("night_risk", 85/100)
  else if mineAttempt ∨ s.y ≤ 32 then ("mining_mode", 75/100)
  else if nearResource then ("near_resource", 70/100)
  else ("exploring", 60/100)

/-- `ModelUtils._rules`: the ladder plus the distribution construction. -/
def rules (s : Snapshot) (events : List Event) :
    String × ℚ × List (String × ℚ) :=
  let lc := classifyRules s events
  (lc.1, lc.2, mkDist lc.1 lc.2)

/-- The configuration values the decision engine reads from `CFG`. -/
structure Config where
  confThreshold : ℚ
  maxSpoilerLevel : ℤ
  globalCooldown : ℚ
  labelCooldown : ℚ
  tipCooldown : ℚ
deriving Repr, DecidableEq

/-- The documented defaults of `_load_config` (`CONF_THRESHOLD=0.6`,
`MAX_SPOILER_LEVEL=1`, `GLOBAL_COOLDOWN_SECONDS=15`,
`LABEL_COOLDOWN_SECONDS=30`, `TIP_COOLDOWN_SECONDS=180`). -/
def defaultConfig : Config :=
  { confThreshold := 60/100
    maxSpoilerLevel := 1
    globalCooldown := 15
    labelCooldown := 30
    tipCooldown := 180 }

/-- One tip candidate as stored in the tips dataset:
`{"text": ..., "spoiler_level": ..., "priority": ...}`. -/
structure Candidate where
  text : String
  spoilerLevel : ℤ
  priority : ℚ
deriving Repr, DecidableEq

/-- An audit row of `logs/decisions.csv` as appended by
`CompanionServer._after_post` (the confidence column is the literal `1.0`
in the source, so it is not recorded here). -/
structure DecisionRecord where
  timestamp : ℚ
  label : String
  tip : String
  usedRag : ℕ
  stateRef : String
deriving Repr, DecidableEq

/-- The mutable timing / audit state of `CompanionServer`.  The source's
dicts accessed through `.get(k, 0)` become total functions defaulting 0. -/
structure ServerState where
  lastTip : Option String
  lastTipTimestamp : ℚ
  labelLastTip : String → ℚ
  tipLastShown : String → ℚ
  labelTipsPosted : String → ℕ
  labelAcceptance : String → ℕ
  decisions : List DecisionRecord

/-- The fresh state built in `CompanionServer.__init__` before
`_load_state` runs: all ledgers empty (timestamps 0), counters 0. -/
def initialState : ServerState :=
  { lastTip := none
    lastTipTimestamp := 0
    labelLastTip := fun _ => 0
    tipLastShown := fun _ => 0
    labelTipsPosted := fun _ => 0
    labelAcceptance := fun _ => 0
    decisions := [] }

/-- The static `relevance_map` of `CompanionServer._calculate_event_boost`;
`dict.get(label, [])` becomes the final `[]` branch. -/
def relevanceMap (label : String) : List String :=
  if label = "low_health" then ["damage_taken", "player_death", "combat_start"]
  else if label = "low_food" then ["hunger_depleted", "sprint_fail"]
  else if label = "combat" then
    ["damage_taken", "combat_start", "mob_killed", "player_death"]
  else if label = "mining_mode" then ["mine_attempt", "block_broken", "ore_found"]
  else if label = "night_risk" then ["time_sunset", "mob_spawn_nearby"]
  else if label = "near_resource" then ["block_targeted", "ore_spotted"]
  else if label = "exploring" then
    ["biome_changed", "structure_found", "coordinates_far"]
  else if label = "building" then ["block_placed", "crafting_table_used"]
  else if label = "enchanting" then ["enchant_attempt", "exp_gained"]
  else if label = "farming" then ["crop_harvested", "animal_bred"]
  else if label = "nether" then ["dimension_nether", "fire_damage", "piglin_aggro"]
  else []

/-- `matches = sum(1 for et in event_types if et in relevant_events)`. -/
def matchCount (label : String) (events : List Event) : ℕ :=
  (eventTypes events).countP (fun et => et ∈ relevanceMap label)

/-- `CompanionServer._calculate_event_boost`. -/
def calculateEventBoost (label : String) (events : List Event) : ℚ :=
  if events = [] then 1
  else
    let nMatch := matchCount label events
    if nMatch = 0 then 1
    else min (1 + ((nMatch : ℚ) / (events.length : ℚ)) * 2) 3

/-- The candidate filter at the head of `CompanionServer._select_tip`:
keep candidates with `spoiler_level <= MAX_SPOILER_LEVEL` whose text is not
inside its per-candidate cooldown window. -/
def filterCandidates (cfg : Config) (st : ServerState) (now : ℚ)
    (allTips : List Candidate) : List Candidate :=
  allTips.filter fun t =>
    decide (t.spoilerLevel ≤ cfg.maxSpoilerLevel) &&
    decide (cfg.tipCooldown ≤ now - st.tipLastShown t.text)

/-- Stable descending insertion on score: the new pair goes before the
first element whose score it at least matches, so earlier-listed pairs
stay ahead of equal-scored later ones — the behaviour of Python's stable
`list.sort(key=lambda x: x[0], reverse=True)`. -/
def insertDesc (x : ℚ × String) : List (ℚ × String) → List (ℚ × String)
  | [] => [x]
  | y :: ys => if y.1 ≤ x.1 then x :: y :: ys else y :: insertDesc x ys

/-- Stable descending sort by score (see `insertDesc`). -/
def sortDesc : List (ℚ × String) → List (ℚ × String)
  | [] => []
  | x :: xs => insertDesc x (sortDesc xs)

/-- `CompanionServer._select_tip`: filter, score by
`conf * priority * event_boost * (1.0 - 0.5 * time_factor)`, stable-sort
descending and return the text of the best pair (`None` when the filtered
list is empty). -/
def selectTip (cfg : Config) (st : ServerState) (now : ℚ) (label : String)
    (conf : ℚ) (events : List Event) (allTips : List Candidate) :
    Option String :=
  let cand := filterCandidates cfg st now allTips
  match cand with
  | [] => none
  | c :: cs =>
    let eventBoost := calculateEventBoost label events
    let timeSince := max 0 (now - st.labelLastTip label)
    let timeFactor := 1 - min timeSince 60 / 120
    let score := fun (t : Candidate) =>
      conf * t.priority * eventBoost * (1 - (1/2) * timeFactor)
    let scored := (c :: cs).map fun t => (score t, t.text)
    (sortDesc scored).head?.map Prod.snd

/-- `CompanionServer._check_cooldowns`. -/
def checkCooldowns (cfg : Config) (st : ServerState) (now : ℚ)
    (label : String) : Bool :=
  if now - st.lastTipTimestamp < cfg.globalCooldown then false
  else if now - st.labelLastTip label < cfg.labelCooldown then false
  else true

/-- `CompanionServer._after_post`: commit all three ledgers, bump the
posted counter and append the decision row. -/
def afterPost (st : ServerState) (label tip : String) (usedRag : ℕ)
    (stateRef : String) (now : ℚ) : ServerState :=
  { st with
    lastTip := some tip
    lastTipTimestamp := now
    labelLastTip := fun l => if l = label then now else st.labelLastTip l
    tipLastShown := fun t => if t = tip then now else st.tipLastShown t
    labelTipsPosted := fun l =>
      if l = label then st.labelTipsPosted l + 1 else st.labelTipsPosted l
    decisions := st.decisions ++
      [{ timestamp := now, label := label, tip := tip,
         usedRag := usedRag, stateRef := stateRef }] }

/-- The JSON document written by `CompanionServer._save_state`: exactly the
four dicts `label_last_tip`, `tip_last_shown`, `label_acceptance`,
`label_tips_posted` plus `last_save`. -/
structure SavedState where
  labelLastTip : String → ℚ
  tipLastShown : String → ℚ
  labelAcceptance : String → ℕ
  labelTipsPosted : String → ℕ
  lastSave : ℚ

/-- `CompanionServer._save_state` (`now` is `time.time()` at save time). -/
def saveState (st : ServerState) (now : ℚ) : SavedState :=
  { labelLastTip := st.labelLastTip
    tipLastShown := st.tipLastShown
    labelAcceptance := st.labelAcceptance
    labelTipsPosted := st.labelTipsPosted
    lastSave := now }

/-- The body of `CompanionServer._load_state` once the file was parsed:
overwrite the four dicts, leave every other field as constructed. -/
def loadStateDoc (d : SavedState) (st : ServerState) : ServerState :=
  { st with
    labelLastTip := d.labelLastTip
    tipLastShown := d.tipLastShown
    labelAcceptance := d.labelAcceptance
    labelTipsPosted := d.labelTipsPosted }

/-- `CompanionServer._load_state`: a missing or corrupt state file raises
inside the `try`, is swallowed by `except Exception: pass`, and the state
stays as constructed (`none` models that case). -/
def loadState (d : Option SavedState) (st : ServerState) : ServerState :=
  match d with
  | none => st
  | some doc => loadStateDoc doc st

/-- Terminal condition of one `_process_state` cycle, refining the three
early `return`s and the two dispatch results of the source (the source's
single `if not tip or not self._check_cooldowns(label)` short-circuits:
`rejected` is reachable only when a tip was selected). -/
inductive Outcome where
  | suppressedLowConf
  | suppressedNoTip
  | rejected
  | dispatched (tip : String)
  | dispatchFailed (tip : String)
deriving Repr, DecidableEq

/-- Result of one evaluation cycle: the server state after the call, the
terminal outcome, and the state-file document written by `_save_state`
(`none` when no persistence write happened). -/
structure EvalResult where
  state : ServerState
  outcome : Outcome
  persisted : Option SavedState

/-- `CompanionServer._process_state` for one cycle, with the external
collaborators passed in: `tips` is `TipsDataset.get_tips_for_label`,
`paraphrase` is `paraphrase_tip_with_recipe` (applied when the selected
text holds the `\x7brecipe\x7d` placeholder), and `postOk` is the success
report of the dispatch sink `_post_tip`.  The learned model is absent
(`model_loaded` false), so classification is `ModelUtils._rules`. -/
def processState (cfg : Config) (tips : String → List Candidate)
    (paraphrase : String → String) (st : ServerState) (snap : Snapshot)
    (events : List Event) (now : ℚ) (postOk : Bool) : EvalResult :=
  let lc := classifyRules snap events
  let label := lc.1
  let conf := lc.2
  if conf < cfg.confThreshold then
    ⟨st, .suppressedLowConf, none⟩
  else
    match selectTip cfg st now label conf events (tips label) with
    | none => ⟨st, .suppressedNoTip, none⟩
    | some tip0 =>
      -- `if not tip or not self._check_cooldowns(label)`: an empty string
      -- is falsy in Python, and the cooldown check is short-circuited.
      if tip0 = "" then ⟨st, .suppressedNoTip, none⟩
      else if checkCooldowns cfg st now label then
        let usedRag : ℕ := if strContains "\x7brecipe\x7d" tip0 then 1 else 0
        let tip := if strContains "\x7brecipe\x7d" tip0 then paraphrase tip0
                   else tip0
        if postOk then
          let st' := afterPost st label tip usedRag snap.tsRef now
          ⟨st', .dispatched tip, some (saveState st' now)⟩
        else ⟨st, .dispatchFailed tip, none⟩
      else ⟨st, .rejected, none⟩

/-! ### Formatter (`llm_wrapper.py`) -/

/-- Python `s[:k]` on a character list, including the negative-index case
(`k < 0` keeps all but the last `-k` characters, clamped at empty). -/
def pySliceTo (l : List Char) (k : ℤ) : List Char :=
  if k < 0 then l.take ((l.length : ℤ) + k).toNat else l.take k.toNat

/-- Python `str.rstrip()`. -/
def pyRstrip (l : List Char) : List Char :=
  (l.reverse.dropWhile Char.isWhitespace).reverse

/-- Python `str.strip()`. -/
def pyStrip (l : List Char) : List Char :=
  pyRstrip (l.dropWhile Char.isWhitespace)

/-- `llm_wrapper._trim`: strip, and when the stripped text is longer than
a positive `maxLength`, truncate to `text[:max_length - 3]`, right-strip
and append the ellipsis marker. -/
def pyTrim (text : List Char) (maxLength : ℤ) : List Char :=
  let t := pyStrip text
  if 0 < maxLength ∧ maxLength < (t.length : ℤ) then
    pyRstrip (pySliceTo t (maxLength - 3)) ++ "...".toList
  else t

/-- The deterministic non-LLM stub of `paraphrase_with_context`, used
verbatim on the disabled, SDK-missing and exception paths: the query, or
the query plus `" (Context: "` + the first three docs joined by spaces +
`")"`, trimmed. -/
def fallbackParaphrase (query : String) (docs : List String)
    (maxLength : ℤ) : List Char :=
  if docs = [] then pyTrim query.toList maxLength
  else
    let joined := String.intercalate " " (docs.take 3)
    pyTrim (query ++ " (Context: " ++ joined ++ ")").toList maxLength

/-- `paraphrase_with_context`: `llmText` is the text extracted from a
successful Gemini call; `none` covers every other path (LLM disabled, no
API key, SDK missing, call raised, empty extraction) — all of which fall
back to the deterministic stub.  Every branch of the source returns
through `_trim`. -/
def paraphraseWithContext (llmText : Option String) (query : String)
    (docs : List String) (maxLength : ℤ) : List Char :=
  match llmText with
  | some t => pyTrim t.toList maxLength
  | none => fallbackParaphrase query docs maxLength

/-! ## Claim C1: rule-ladder precedence -/

/-- A snapshot with health 5 and hunger 20 (other fields arbitrary but
concrete) whose window holds `damage_taken`, `combat_start` and
`player_death`: rule 1 pre-empts rule 2 here. -/
def c1Snapshot : Snapshot :=
  { health := 5, hunger := 20, isNight := false, logs := 0, y := 64,
    blockUnderCrosshair := "stone", tsRef := "unknown" }

/-- The window of the C1 counterexample. -/
def c1Events : List Event :=
  [⟨"damage_taken"⟩, ⟨"combat_start"⟩, ⟨"player_death"⟩]

/-- C1 (counterexample): a snapshot with health 5 and hunger 20 whose
window contains a `damage_taken` event, yet the classifier does not return
confidence 0.95 — the window also holds `player_death`, so rule 1 fires
with confidence 0.98. -/
theorem classifyRules_c1_claim_false :
    c1Snapshot.health = 5 ∧ c1Snapshot.hunger = 20 ∧
    "damage_taken" ∈ eventTypes c1Events ∧
    classifyRules c1Snapshot c1Events ≠ ("low_health", 95/100) ∧
    classifyRules c1Snapshot c1Events = ("low_health", 98/100) := by
  have hval : classifyRules c1Snapshot c1Events = ("low_health", 98/100) := by
    unfold classifyRules
    rw [if_pos (by simp [eventTypes, c1Events])]
  refine ⟨rfl, rfl, by simp [eventTypes, c1Events], ?_, hval⟩
  rw [hval]
  intro hc
  have h2 := congrArg Prod.snd hc
  norm_num at h2

/-- C1 (amended): for every snapshot with health 5 and hunger 20 whose
event window contains `damage_taken` but no `player_death`, the rule
ladder answers `low_health` with confidence 0.95 (rule 2), pre-empting
rule 3 even when `combat_start` is present. -/
theorem classifyRules_damage_precedence (s : Snapshot) (events : List Event)
    (hh : s.health = 5) (_hg : s.hunger = 20)
    (hd : "damage_taken" ∈ eventTypes events)
    (hnd : "player_death" ∉ eventTypes events) :
    classifyRules s events = ("low_health", 95/100) := by
  unfold classifyRules
  rw [if_neg hnd, if_pos ⟨hd, by rw [hh]; norm_num⟩]

/-- Witness for `classifyRules_damage_precedence` at a concrete window
that also contains `combat_start`. -/
theorem classifyRules_damage_precedence_witness :
    classifyRules c1Snapshot [⟨"combat_start"⟩, ⟨"damage_taken"⟩]
      = ("low_health", 95/100) :=
  classifyRules_damage_precedence c1Snapshot _ rfl rfl
    (by simp [eventTypes]) (by simp [eventTypes])

/-! ## Claim C3: event-boost bounds -/

/-- Bounds and closed form of `_calculate_event_boost`, shared by the
boost theorem and the ranking development. -/
lemma calculateEventBoost_bounds (label : String) (events : List Event) :
    1 ≤ calculateEventBoost label events ∧ calculateEventBoost label events ≤ 3 := by
  simp only [calculateEventBoost]
  by_cases h0 : events = []
  · simp [h0]
  · by_cases hm : matchCount label events = 0
    · simp [h0, hm]
    · rw [if_neg h0, if_neg hm]
      constructor
      · refine le_min ?_ (by norm_num)
        have hq : (0:ℚ) ≤ (matchCount label events : ℚ) / (events.length : ℚ) :=
          div_nonneg (Nat.cast_nonneg _) (Nat.cast_nonneg _)
        linarith
      · exact min_le_right _ _

/-- C3: the boost lies in `[1, 3]`; it is exactly 1 on an empty window or
when no event type is relevant to the label, and otherwise equals
`min(3, 1 + (matches / totalEvents) * 2)`. -/
theorem calculateEventBoost_spec (label : String) (events : List Event) :
    1 ≤ calculateEventBoost label events ∧
    calculateEventBoost label events ≤ 3 ∧
    calculateEventBoost label events =
      (if events = [] ∨ matchCount label events = 0 then 1
       else min 3 (1 + ((matchCount label events : ℚ) / (events.length : ℚ)) * 2)) := by
  obtain ⟨h1, h3⟩ := calculateEventBoost_bounds label events
  refine ⟨h1, h3, ?_⟩
  simp only [calculateEventBoost]
  by_cases h0 : events = []
  · simp [h0]
  · by_cases hm : matchCount label events = 0
    · simp [h0, hm]
    · rw [if_neg h0, if_neg hm,
        if_neg (by tauto : ¬(events = [] ∨ matchCount label events = 0))]
      exact min_comm _ _

/-! ## Claim C2: distribution of the rule strategy -/

/-- Looking up a key in an association list built by pairing each element
of a list with a value finds the value of that key. -/
lemma lookup_map_pair (f : String → ℚ) (l : String) :
    ∀ L : List String, l ∈ L →
      (L.map fun x => (x, f x)).lookup l = some (f l) := by
  intro L hL
  induction L with
  | nil => cases hL
  | cons a L ih =>
    by_cases hla : l = a
    · subst hla
      simp [List.lookup]
    · have hmem : l ∈ L := by
        rcases List.mem_cons.mp hL with h | h
        · exact absurd h hla
        · exact h
      simpa [List.lookup, beq_eq_false_iff_ne.mpr hla] using ih hmem

/-- The label returned by the rule ladder is always one of the eight
known labels. -/
lemma classifyRules_mem_knownLabels (s : Snapshot) (events : List Event) :
    (classifyRules s events).1 ∈ knownLabels := by
  simp only [classifyRules]
  split_ifs <;> simp [knownLabels]

/-- The distribution sums to exactly 1 whenever the distinguished label is
known: the remaining mass `(1 - conf)/(labelCount - 1)` is spread over the
seven other labels. -/
lemma mkDist_sum (label : String) (conf : ℚ) (h : label ∈ knownLabels) :
    ((mkDist label conf).map Prod.snd).sum = 1 := by
  simp only [knownLabels, List.mem_cons, List.not_mem_nil, or_false] at h
  rcases h with h | h | h | h | h | h | h | h <;> subst h <;>
    · simp [mkDist, knownLabels, String.reduceEq]
      ring

/-- C2: for every snapshot and event list, the distribution returned by
`ModelUtils._rules` assigns the returned confidence to the returned label,
assigns every other known label `(1 - conf)/(labelCount - 1)`, and its
values sum to 1 within `1e-6` (here: exactly). -/
theorem rules_distribution_spec (s : Snapshot) (events : List Event) :
    ((rules s events).2.2).lookup (rules s events).1 = some (rules s events).2.1 ∧
    (∀ l ∈ knownLabels, l ≠ (rules s events).1 →
      ((rules s events).2.2).lookup l
        = some ((1 - (rules s events).2.1) / ((knownLabels.length : ℚ) - 1))) ∧
    |(((rules s events).2.2).map Prod.snd).sum - 1| ≤ 1/1000000 := by
  have hmem := classifyRules_mem_knownLabels s events
  simp only [rules]
  refine ⟨?_, ?_, ?_⟩
  · rw [mkDist,
      lookup_map_pair _ _ _ hmem]
    simp
  · intro l hl hne
    rw [mkDist, lookup_map_pair _ _ _ hl, if_neg hne]
  · rw [mkDist_sum _ _ hmem]
    norm_num

/-! ## Claim C4: admission check and cooldown monotonicity -/

/-- `_check_cooldowns` as a conjunction of the two ledger conditions. -/
lemma checkCooldowns_iff (cfg : Config) (st : ServerState) (now : ℚ)
    (label : String) :
    checkCooldowns cfg st now label = true ↔
      (cfg.globalCooldown ≤ now - st.lastTipTimestamp ∧
       cfg.labelCooldown ≤ now - st.labelLastTip label) := by
  unfold checkCooldowns
  split_ifs with h1 h2
  · simp only [Bool.false_eq_true, false_iff]
    rintro ⟨hg, -⟩
    linarith
  · simp only [Bool.false_eq_true, false_iff]
    rintro ⟨-, hl⟩
    linarith
  · simp only [true_iff]
    exact ⟨not_lt.mp h1, not_lt.mp h2⟩

/-- C4: `admit(label)` holds iff both the global and the per-label ledger
conditions hold; and after a dispatch committed at time `T` for `label`,
admission is denied at `T + labelCooldown - ε` and granted at
`T + labelCooldown + ε` (for `0 < ε` and a global cooldown that the later
instant satisfies, as with the default 15 s global / 30 s label values). -/
theorem checkCooldowns_spec (cfg : Config) (st : ServerState)
    (now T ε : ℚ) (label tip : String) (usedRag : ℕ) (stateRef : String)
    (hε : 0 < ε) (hg : cfg.globalCooldown ≤ cfg.labelCooldown + ε) :
    (checkCooldowns cfg st now label = true ↔
      (cfg.globalCooldown ≤ now - st.lastTipTimestamp ∧
       cfg.labelCooldown ≤ now - st.labelLastTip label)) ∧
    checkCooldowns cfg (afterPost st label tip usedRag stateRef T)
      (T + cfg.labelCooldown - ε) label = false ∧
    checkCooldowns cfg (afterPost st label tip usedRag stateRef T)
      (T + cfg.labelCooldown + ε) label = true := by
  refine ⟨checkCooldowns_iff cfg st now label, ?_, ?_⟩
  · rw [Bool.eq_false_iff]
    intro hT
    rw [checkCooldowns_iff] at hT
    obtain ⟨-, hl⟩ := hT
    simp only [afterPost, if_pos] at hl
    linarith
  · rw [checkCooldowns_iff]
    simp only [afterPost, if_pos]
    constructor <;> linarith

/-- Witness for `checkCooldowns_spec` with the default configuration,
a dispatch at `T = 100` and `ε = 1`. -/
theorem checkCooldowns_spec_witness :
    (checkCooldowns defaultConfig initialState 50 "combat" = true ↔
      (defaultConfig.globalCooldown ≤ 50 - initialState.lastTipTimestamp ∧
       defaultConfig.labelCooldown ≤ 50 - initialState.labelLastTip "combat")) ∧
    checkCooldowns defaultConfig
      (afterPost initialState "combat" "tipA" 0 "ref" 100)
      (100 + defaultConfig.labelCooldown - 1) "combat" = false ∧
    checkCooldowns defaultConfig
      (afterPost initialState "combat" "tipA" 0 "ref" 100)
      (100 + defaultConfig.labelCooldown + 1) "combat" = true :=
  checkCooldowns_spec defaultConfig initialState 50 100 1 "combat" "tipA" 0 "ref"
    (by norm_num) (by norm_num [defaultConfig])

/-! ## Claim C5: failed dispatch mutates nothing -/

/-- C5: whatever snapshot, window, time and collaborators, a cycle whose
dispatch sink reports failure returns with the server state identical to
its pre-call value and no persistence write.  (Cycles ending before the
dispatch likewise no-op; the committing branch requires `postOk = true`.) -/
theorem processState_failed_dispatch (cfg : Config)
    (tips : String → List Candidate) (paraphrase : String → String)
    (st : ServerState) (snap : Snapshot) (events : List Event) (now : ℚ) :
    (processState cfg tips paraphrase st snap events now false).state = st ∧
    (processState cfg tips paraphrase st snap events now false).persisted = none := by
  simp only [processState]
  rcases hsel : selectTip cfg st now (classifyRules snap events).1
      (classifyRules snap events).2 events (tips (classifyRules snap events).1) with
    _ | tip0 <;>
    dsimp only <;>
    split_ifs <;>
      first
        | exact ⟨rfl, rfl⟩
        | exact False.elim (by assumption)

/-! ## Claim C6: per-candidate suppression -/

/-- C6: after a dispatch of text `tip` committed at time `T`, any
candidate bearing that text is excluded from the scorer's filtered set at
every evaluation time `now` with `now - T < tipCooldown` — for an
arbitrary ledger state `st` and label, i.e. independently of the
label-level and global cooldown state. -/
theorem filterCandidates_excludes_recent (cfg : Config) (st : ServerState)
    (label tip : String) (usedRag : ℕ) (stateRef : String) (T now : ℚ)
    (tipsL : List Candidate) (c : Candidate)
    (hc : c.text = tip) (hlt : now - T < cfg.tipCooldown) :
    c ∉ filterCandidates cfg (afterPost st label tip usedRag stateRef T)
          now tipsL := by
  intro hmem
  rw [filterCandidates, List.mem_filter] at hmem
  obtain ⟨-, hcond⟩ := hmem
  rw [Bool.and_eq_true, decide_eq_true_eq, decide_eq_true_eq] at hcond
  obtain ⟨-, h2⟩ := hcond
  rw [hc] at h2
  simp only [afterPost, if_pos] at h2
  linarith

/-- Witness for `filterCandidates_excludes_recent`: the candidate posted
at `T = 100` is still filtered out at `now = 101` under the default 180 s
per-candidate cooldown. -/
theorem filterCandidates_excludes_recent_witness :
    (⟨"tipA", 0, 5⟩ : Candidate) ∉
      filterCandidates defaultConfig
        (afterPost initialState "exploring" "tipA" 0 "ref" 100) 101
        [⟨"tipA", 0, 5⟩] :=
  filterCandidates_excludes_recent defaultConfig initialState "exploring"
    "tipA" 0 "ref" 100 101 [⟨"tipA", 0, 5⟩] ⟨"tipA", 0, 5⟩ rfl
    (by norm_num [defaultConfig])

/-! ## Claim C8: persisted engine state -/

/-- A server state with a non-trivial global ledger, used to exhibit that
the persisted document does not carry `last_tip_timestamp`. -/
def c8State : ServerState :=
  { initialState with
    lastTipTimestamp := 42
    labelLastTip := fun l => if l = "combat" then 7 else 0
    tipLastShown := fun t => if t = "tipA" then 9 else 0 }

/-- C8 (counterexample): saving a state whose global ledger reads 42 and
reloading the document at startup restores the per-label ledger but yields
global ledger 0 — `_save_state` writes only `label_last_tip`,
`tip_last_shown`, `label_acceptance` and `label_tips_posted`, never the
global `last_tip_timestamp`. -/
theorem saveState_drops_global_ledger :
    c8State.lastTipTimestamp = 42 ∧
    (loadState (some (saveState c8State 100)) initialState).labelLastTip "combat" = 7 ∧
    (loadState (some (saveState c8State 100)) initialState).tipLastShown "tipA" = 9 ∧
    (loadState (some (saveState c8State 100)) initialState).lastTipTimestamp = 0 ∧
    (0 : ℚ) ≠ 42 :=
  ⟨rfl, by simp [loadState, loadStateDoc, saveState, c8State],
    by simp [loadState, loadStateDoc, saveState, c8State], rfl, by norm_num⟩

/-- C8 (amended): the persisted document holds the per-label and
per-candidate cooldown ledgers and the acceptance (and posted) counters —
but not the global ledger, which reloads as its initial 0 — and a missing
or corrupt state file loads as the unchanged initial state rather than an
error. -/
theorem saveState_contents (st st0 : ServerState) (now : ℚ) :
    (saveState st now).labelLastTip = st.labelLastTip ∧
    (saveState st now).tipLastShown = st.tipLastShown ∧
    (saveState st now).labelAcceptance = st.labelAcceptance ∧
    (saveState st now).labelTipsPosted = st.labelTipsPosted ∧
    loadState none st0 = st0 ∧
    (loadState (some (saveState st now)) initialState).labelLastTip
        = st.labelLastTip ∧
    (loadState (some (saveState st now)) initialState).tipLastShown
        = st.tipLastShown ∧
    (loadState (some (saveState st now)) initialState).lastTipTimestamp
        = initialState.lastTipTimestamp :=
  ⟨rfl, rfl, rfl, rfl, rfl, rfl, rfl, rfl⟩

/-! ## Claim C9: formatter length cap -/

lemma length_dropWhile_le (p : Char → Bool) (l : List Char) :
    (l.dropWhile p).length ≤ l.length := by
  induction l with
  | nil => simp
  | cons a l ih =>
    by_cases h : p a
    · rw [List.dropWhile_cons, if_pos h, List.length_cons]
      omega
    · rw [List.dropWhile_cons, if_neg h]

lemma pyRstrip_length_le (l : List Char) : (pyRstrip l).length ≤ l.length := by
  unfold pyRstrip
  calc ((l.reverse.dropWhile Char.isWhitespace).reverse).length
      = (l.reverse.dropWhile Char.isWhitespace).length := List.length_reverse _
    _ ≤ l.reverse.length := length_dropWhile_le _ _
    _ = l.length := List.length_reverse _

/-- The text `_trim` is applied to on each return path of
`paraphrase_with_context`: the successful LLM extraction, or the
deterministic stub built from the query and the first three docs. -/
def formatterInput (llmText : Option String) (query : String)
    (docs : List String) : List Char :=
  match llmText with
  | some t => t.toList
  | none =>
    if docs = [] then query.toList
    else (query ++ " (Context: " ++ String.intercalate " " (docs.take 3) ++ ")").toList

lemma paraphrase_eq_trim (llmText : Option String) (query : String)
    (docs : List String) (maxLength : ℤ) :
    paraphraseWithContext llmText query docs maxLength
      = pyTrim (formatterInput llmText query docs) maxLength := by
  cases llmText with
  | some t => rfl
  | none =>
    unfold paraphraseWithContext fallbackParaphrase formatterInput
    split_ifs <;> rfl

/-- Soft-cap behaviour of `_trim` for `maxLength ≥ 3`: the result never
exceeds `maxLength` characters, and whenever the stripped input is longer
than the cap, the result carries the trailing ellipsis marker. -/
lemma pyTrim_spec (t : List Char) (m : ℤ) (hm : 3 ≤ m) :
    ((pyTrim t m).length : ℤ) ≤ m ∧
    (m < ((pyStrip t).length : ℤ) →
      ∃ y, pyTrim t m = y ++ "...".toList) := by
  unfold pyTrim
  by_cases hc : 0 < m ∧ m < ((pyStrip t).length : ℤ)
  · rw [if_pos hc]
    constructor
    · rw [List.length_append]
      have hslice : ((pySliceTo (pyStrip t) (m - 3)).length : ℤ) ≤ m - 3 := by
        unfold pySliceTo
        rw [if_neg (by omega : ¬(m - 3 < 0))]
        have := List.length_take_le (m - 3).toNat (pyStrip t)
        have h3 : ((m - 3).toNat : ℤ) = m - 3 := Int.toNat_of_nonneg (by omega)
        omega
      have hr := pyRstrip_length_le (pySliceTo (pyStrip t) (m - 3))
      have : ("...".toList).length = 3 := rfl
      omega
    · intro _
      exact ⟨_, rfl⟩
  · rw [if_neg hc]
    have hlen : ((pyStrip t).length : ℤ) ≤ m := by
      rcases not_and_or.mp hc with h | h
      · omega
      · omega
    exact ⟨hlen, fun hgt => absurd hgt (by omega)⟩

/-- C9 (counterexample): with the LLM disabled and `max_length = 2` (a
positive cap), the fallback for query `"hello"` returns `"hell..."` —
7 characters, exceeding the cap — because `text[:max_length - 3]` is a
negative Python slice. -/
theorem paraphrase_cap_violated :
    (0 : ℤ) < 2 ∧
    paraphraseWithContext none "hello" [] 2 = "hell...".toList ∧
    ¬(((paraphraseWithContext none "hello" [] 2).length : ℤ) ≤ 2) := by
  refine ⟨by norm_num, by decide, by decide⟩

/-- C9 (amended): for every query, snippet list and `max_length ≥ 3`, the
formatter's result — LLM path and deterministic fallback alike — is at
most `max_length` characters, carries the trailing `"..."` marker whenever
the stripped underlying text exceeds the cap, and the non-LLM path is the
deterministic fallback built from the query and snippets. -/
theorem paraphrase_length_cap (llmText : Option String) (query : String)
    (docs : List String) (m : ℤ) (hm : 3 ≤ m) :
    ((paraphraseWithContext llmText query docs m).length : ℤ) ≤ m ∧
    (m < ((pyStrip (formatterInput llmText query docs)).length : ℤ) →
      ∃ y, paraphraseWithContext llmText query docs m = y ++ "...".toList) ∧
    paraphraseWithContext none query docs m = fallbackParaphrase query docs m := by
  rw [paraphrase_eq_trim]
  exact ⟨(pyTrim_spec _ m hm).1, (pyTrim_spec _ m hm).2, rfl⟩

/-- Witness for `paraphrase_length_cap` at query `"hello world"`, one doc
and cap 12. -/
theorem paraphrase_length_cap_witness :
    ((paraphraseWithContext none "hello world" ["a doc"] 12).length : ℤ) ≤ 12 ∧
    (12 < ((pyStrip (formatterInput none "hello world" ["a doc"])).length : ℤ) →
      ∃ y, paraphraseWithContext none "hello world" ["a doc"] 12
        = y ++ "...".toList) ∧
    paraphraseWithContext none "hello world" ["a doc"] 12
      = fallbackParaphrase "hello world" ["a doc"] 12 :=
  paraphrase_length_cap none "hello world" ["a doc"] 12 (by norm_num)

/-! ## Claim C10: composite-score ranking coincides with priority ranking -/

/-- The strictly-better step of a left fold over scored pairs: replace the
accumulator only when the new score is strictly greater (equal scores keep
the earlier pair — stability). -/
def pickBetter (b y : ℚ × String) : ℚ × String :=
  if b.1 < y.1 then y else b

/-- The outer combination: the earlier element `a` survives unless the
later result `m` is strictly greater. -/
def pickKeep (a m : ℚ × String) : ℚ × String :=
  if m.1 ≤ a.1 then a else m

/-- The same strictly-better step on candidates, compared by priority. -/
def betterCand (b y : Candidate) : Candidate :=
  if b.priority < y.priority then y else b

/-- Spec-side selection: the earliest-listed candidate of maximum
priority, `none` on an empty list. -/
def firstMaxPriority : List Candidate → Option Candidate
  | [] => none
  | c :: cs => some (cs.foldl betterCand c)

lemma pickBetter_eq_pickKeep (x y : ℚ × String) :
    pickBetter x y = pickKeep x y := by
  unfold pickBetter pickKeep
  split_ifs <;> first | rfl | (exfalso; linarith)

lemma pickKeep_pickBetter (x y m : ℚ × String) :
    pickKeep (pickBetter x y) m = pickKeep x (pickKeep y m) := by
  unfold pickBetter pickKeep
  split_ifs <;> first | rfl | (exfalso; linarith)

lemma foldl_pickBetter_cons :
    ∀ (zs : List (ℚ × String)) (x y : ℚ × String),
      zs.foldl pickBetter (pickBetter x y)
        = pickKeep x (zs.foldl pickBetter y) := by
  intro zs
  induction zs with
  | nil => exact fun x y => pickBetter_eq_pickKeep x y
  | cons z zs ih =>
    intro x y
    rw [List.foldl_cons, List.foldl_cons, ih (pickBetter x y) z, ih y z,
      pickKeep_pickBetter]

/-- The head of the stable descending sort is the left-fold first
maximum: the earliest pair of maximal score. -/
lemma sortDesc_head :
    ∀ (xs : List (ℚ × String)) (x : ℚ × String),
      (sortDesc (x :: xs)).head? = some (xs.foldl pickBetter x) := by
  intro xs
  induction xs with
  | nil => intro x; rfl
  | cons y ys ih =>
    intro x
    show (insertDesc x (sortDesc (y :: ys))).head? = _
    rcases hmt : sortDesc (y :: ys) with _ | ⟨m, t⟩
    · have h0 := ih y
      rw [hmt] at h0
      exact absurd h0 (by simp)
    · have hm : m = ys.foldl pickBetter y := by
        have h0 := ih y
        rw [hmt] at h0
        simpa using h0
      rw [List.foldl_cons, foldl_pickBetter_cons ys x y, ← hm]
      unfold insertDesc pickKeep
      by_cases hc : m.1 ≤ x.1
      · rw [if_pos hc, if_pos hc]
        rfl
      · rw [if_neg hc, if_neg hc]
        rfl

/-- With a common strictly positive multiplier `k`, the first maximum of
the scored pairs is the image of the first maximum by priority. -/
lemma foldl_pickBetter_map (k : ℚ) (hk : 0 < k) :
    ∀ (cs : List Candidate) (c : Candidate),
      (cs.map fun t => (k * t.priority, t.text)).foldl pickBetter
          (k * c.priority, c.text)
        = (k * (cs.foldl betterCand c).priority,
           (cs.foldl betterCand c).text) := by
  intro cs
  induction cs with
  | nil => intro c; rfl
  | cons y ys ih =>
    intro c
    rw [List.map_cons, List.foldl_cons, List.foldl_cons]
    have hstep : pickBetter (k * c.priority, c.text) (k * y.priority, y.text)
        = (k * (betterCand c y).priority, (betterCand c y).text) := by
      unfold pickBetter betterCand
      by_cases h : c.priority < y.priority
      · rw [if_pos ((mul_lt_mul_left hk).mpr h), if_pos h]
      · rw [if_neg (fun hlt => h ((mul_lt_mul_left hk).mp hlt)), if_neg h]
    rw [hstep, ih (betterCand c y)]

/-- The common per-candidate multiplier of `_select_tip`'s composite score
is strictly positive whenever the confidence is. -/
lemma score_factor_pos (st : ServerState) (now : ℚ)
    (label : String) (conf : ℚ) (events : List Event) (hconf : 0 < conf) :
    0 < conf * calculateEventBoost label events *
        (1 - (1/2) * (1 - min (max 0 (now - st.labelLastTip label)) 60 / 120)) := by
  have hb := (calculateEventBoost_bounds label events).1
  have h0 : (0:ℚ) ≤ min (max 0 (now - st.labelLastTip label)) 60 :=
    le_min (le_max_left 0 _) (by norm_num)
  have h60 : min (max 0 (now - st.labelLastTip label)) 60 ≤ 60 :=
    min_le_right _ _
  have hz : 0 < 1 - (1/2) * (1 - min (max 0 (now - st.labelLastTip label)) 60 / 120) := by
    nlinarith
  have : (0:ℚ) < conf * calculateEventBoost label events := by nlinarith
  exact mul_pos this hz

/-- `_select_tip` refines priority selection: with positive confidence the
chosen text is that of the earliest surviving candidate of maximum
priority.  Shared by the ranking theorem and the end-to-end scenario. -/
lemma selectTip_eq_firstMax (cfg : Config) (st : ServerState) (now : ℚ)
    (label : String) (conf : ℚ) (events : List Event)
    (allTips : List Candidate) (hconf : 0 < conf) :
    selectTip cfg st now label conf events allTips
      = (firstMaxPriority (filterCandidates cfg st now allTips)).map
          Candidate.text := by
  unfold selectTip
  rcases hfc : filterCandidates cfg st now allTips with _ | ⟨c, cs⟩
  · rfl
  · dsimp only
    set k := conf * calculateEventBoost label events *
      (1 - (1/2) * (1 - min (max 0 (now - st.labelLastTip label)) 60 / 120)) with hkdef
    have hk : 0 < k := score_factor_pos st now label conf events hconf
    have hfeq :
        (fun t : Candidate =>
          (conf * t.priority * calculateEventBoost label events *
            (1 - 1/2 * (1 - min (max 0 (now - st.labelLastTip label)) 60 / 120)),
           t.text))
        = fun t : Candidate => (k * t.priority, t.text) := by
      funext t
      rw [hkdef]
      ring_nf
    rw [hfeq, List.map_cons, sortDesc_head, foldl_pickBetter_map k hk]
    rfl

/-- C10: inside one `_select_tip` call with positive confidence, the
confidence, event boost and time factor multiply every surviving
candidate's score identically and positively, so the composite-score
ranking coincides with ranking by priority: the selected tip is the text
of the earliest-listed surviving candidate of maximum priority (the sort
is stable). -/
theorem selectTip_priority_ranking (cfg : Config) (st : ServerState)
    (now : ℚ) (label : String) (conf : ℚ) (events : List Event)
    (allTips : List Candidate) (hconf : 0 < conf) :
    selectTip cfg st now label conf events allTips
      = (firstMaxPriority (filterCandidates cfg st now allTips)).map
          Candidate.text :=
  selectTip_eq_firstMax cfg st now label conf events allTips hconf

/-- Witness for `selectTip_priority_ranking`: among two surviving
candidates of priorities 2 and 5 the priority-5 text wins; on the tie a
third candidate of priority 5 listed later does not displace it. -/
theorem selectTip_priority_ranking_witness :
    selectTip defaultConfig initialState 1000 "exploring" (60/100) []
        [⟨"a", 0, 2⟩, ⟨"b", 0, 5⟩, ⟨"c", 0, 5⟩]
      = some "b" := by
  rw [selectTip_priority_ranking defaultConfig initialState 1000 "exploring"
    (60/100) [] [⟨"a", 0, 2⟩, ⟨"b", 0, 5⟩, ⟨"c", 0, 5⟩] (by norm_num)]
  have hfc : filterCandidates defaultConfig initialState 1000
      [⟨"a", 0, 2⟩, ⟨"b", 0, 5⟩, ⟨"c", 0, 5⟩]
      = [⟨"a", 0, 2⟩, ⟨"b", 0, 5⟩, ⟨"c", 0, 5⟩] := by
    unfold filterCandidates
    rw [List.filter_eq_self]
    intro c hc
    fin_cases hc <;>
      · rw [Bool.and_eq_true, decide_eq_true_eq, decide_eq_true_eq]
        exact ⟨by norm_num [defaultConfig],
          by norm_num [initialState, defaultConfig]⟩
  rw [hfc]
  have hfold : firstMaxPriority [⟨"a", 0, 2⟩, ⟨"b", 0, 5⟩, ⟨"c", 0, 5⟩]
      = some ⟨"b", 0, 5⟩ := by
    unfold firstMaxPriority betterCand
    norm_num
  rw [hfold]
  rfl

/-! ## Claim C7: end-to-end scenario -/

/-- The scenario snapshot `{health:20, hunger:20, isNight:false, logs:5,
y:64, focus:"stone"}`. -/
def c7Snapshot : Snapshot :=
  { health := 20, hunger := 20, isNight := false, logs := 5, y := 64,
    blockUnderCrosshair := "stone", tsRef := "t0" }

/-- The single `exploring` candidate: priority 5, spoiler 0. -/
def c7Tip : Candidate :=
  { text := "Mark your base coordinates.", spoilerLevel := 0, priority := 5 }

/-- A tips table with exactly one candidate, under `exploring`. -/
def c7Tips : String → List Candidate :=
  fun l => if l = "exploring" then [c7Tip] else []

/-- The server state after the first successful dispatch at `t = 1000`. -/
def c7State1 : ServerState :=
  afterPost initialState "exploring" c7Tip.text 0 "t0" 1000

lemma c7_classify : classifyRules c7Snapshot [] = ("exploring", 60/100) := by
  simp only [classifyRules]
  split_ifs with h1 h2 h3 h4 h5 h6 h7 h8
  · exact absurd h1 (by simp [eventTypes])
  · exact absurd h2 (by simp [eventTypes])
  · exact absurd h3 (by simp [eventTypes])
  · exact absurd h4 (by norm_num [c7Snapshot])
  · exact absurd h5 (by norm_num [c7Snapshot])
  · exact absurd h6 (by simp [c7Snapshot])
  · exact absurd h7 (by norm_num [eventTypes, c7Snapshot])
  · exact absurd h8 (by decide)
  · rfl

lemma c7_filter1 :
    filterCandidates defaultConfig initialState 1000 (c7Tips "exploring")
      = [c7Tip] := by
  have h : c7Tips "exploring" = [c7Tip] := by simp [c7Tips]
  rw [h]
  unfold filterCandidates
  rw [List.filter_eq_self]
  intro c hc
  rw [List.mem_singleton] at hc
  subst hc
  rw [Bool.and_eq_true, decide_eq_true_eq, decide_eq_true_eq]
  exact ⟨by norm_num [defaultConfig, c7Tip],
    by norm_num [initialState, defaultConfig, c7Tip]⟩

lemma c7_select1 :
    selectTip defaultConfig initialState 1000 "exploring" (60/100) []
        (c7Tips "exploring")
      = some c7Tip.text := by
  rw [selectTip_eq_firstMax _ _ _ _ _ _ _ (by norm_num), c7_filter1]
  rfl

lemma c7_process1 :
    processState defaultConfig c7Tips id initialState c7Snapshot [] 1000 true
      = ⟨c7State1, .dispatched c7Tip.text, some (saveState c7State1 1000)⟩ := by
  simp only [processState]
  rw [c7_classify]
  dsimp only
  rw [if_neg (by norm_num [defaultConfig] :
        ¬((60/100 : ℚ) < defaultConfig.confThreshold)),
    c7_select1]
  dsimp only
  rw [if_neg (by decide : ¬(c7Tip.text = "")),
    if_pos (by
      rw [checkCooldowns_iff]
      exact ⟨by norm_num [initialState, defaultConfig],
        by norm_num [initialState, defaultConfig]⟩ :
      checkCooldowns defaultConfig initialState 1000 "exploring" = true)]
  rw [if_neg (by decide : ¬(strContains "\x7brecipe\x7d" c7Tip.text = true))]
  rfl

lemma c7_filter2 :
    filterCandidates defaultConfig c7State1 1001 (c7Tips "exploring") = [] := by
  have h : c7Tips "exploring" = [c7Tip] := by simp [c7Tips]
  rw [h]
  unfold filterCandidates
  rw [List.filter_cons, if_neg ?_, List.filter_nil]
  rw [Bool.and_eq_true, decide_eq_true_eq, decide_eq_true_eq]
  rintro ⟨-, h2⟩
  have hshown : c7State1.tipLastShown c7Tip.text = 1000 := by
    simp [c7State1, afterPost]
  rw [hshown] at h2
  norm_num [defaultConfig] at h2

lemma c7_select2 :
    selectTip defaultConfig c7State1 1001 "exploring" (60/100) []
        (c7Tips "exploring")
      = none := by
  rw [selectTip_eq_firstMax _ _ _ _ _ _ _ (by norm_num), c7_filter2]
  rfl

lemma c7_process2 :
    processState defaultConfig c7Tips id c7State1 c7Snapshot [] 1001 true
      = ⟨c7State1, .suppressedNoTip, none⟩ := by
  simp only [processState]
  rw [c7_classify]
  dsimp only
  rw [if_neg (by norm_num [defaultConfig] :
        ¬((60/100 : ℚ) < defaultConfig.confThreshold)),
    c7_select2]

lemma c7_cooldown2 :
    checkCooldowns defaultConfig c7State1 1001 "exploring" = false := by
  unfold checkCooldowns
  rw [if_pos]
  have hts : c7State1.lastTipTimestamp = 1000 := rfl
  rw [hts]
  norm_num [defaultConfig]

/-- C7 (counterexample): one second after the successful dispatch, the
second evaluation with identical input terminates with no surviving
candidate (`_select_tip` returned `None` because the sole candidate is
inside its 180 s per-candidate cooldown), so the merged
`if not tip or not check_cooldowns` guard short-circuits before the
admission check — the cycle is a no-winner suppression, not the spec's
`Rejected`. -/
theorem endToEnd_second_not_rejected :
    (processState defaultConfig c7Tips id
        (processState defaultConfig c7Tips id initialState c7Snapshot [] 1000
          true).state
        c7Snapshot [] 1001 true).outcome = Outcome.suppressedNoTip ∧
    Outcome.suppressedNoTip ≠ Outcome.rejected := by
  rw [c7_process1]
  exact ⟨congrArg EvalResult.outcome c7_process2, by decide⟩

/-- C7 (amended): on the scenario snapshot with no events the classifier
returns `exploring` at confidence 0.60; with the single priority-5,
spoiler-0 `exploring` candidate and no prior dispatch, `evaluate` at
`t = 1000` admits and dispatches it; the second `evaluate` one second
later with identical input does not dispatch: the just-posted candidate
is inside its per-candidate cooldown, the filtered set is empty and the
cycle ends as a no-winner suppression before the admission check — whose
global-cooldown condition would indeed also deny at that instant. -/
theorem endToEnd_scenario :
    classifyRules c7Snapshot [] = ("exploring", 60/100) ∧
    (processState defaultConfig c7Tips id initialState c7Snapshot [] 1000
        true).outcome = Outcome.dispatched c7Tip.text ∧
    (processState defaultConfig c7Tips id
        (processState defaultConfig c7Tips id initialState c7Snapshot [] 1000
          true).state
        c7Snapshot [] 1001 true).outcome = Outcome.suppressedNoTip ∧
    filterCandidates defaultConfig
        (processState defaultConfig c7Tips id initialState c7Snapshot [] 1000
          true).state
        1001 (c7Tips "exploring") = [] ∧
    checkCooldowns defaultConfig
        (processState defaultConfig c7Tips id initialState c7Snapshot [] 1000
          true).state
        1001 "exploring" = false := by
  refine ⟨c7_classify, ?_, ?_, ?_, ?_⟩ <;> rw [c7_process1]
  · exact congrArg EvalResult.outcome c7_process2
  · exact c7_filter2
  · exact c7_cooldown2

end Companion
